import Mathlib

/-!
Shallow embedding of `backend/api/serializers.py` from the foodgram
repository: the data-serialization layer of a recipe-sharing application.

Storage rows (Django models referenced by the serializers) are records;
the database is a record of row lists; a request context carries the
viewer identity (possibly anonymous), path keyword arguments and query
parameters.  Each serializer method becomes a Lean function over these,
named after the source symbol.  Fallible operations return `Except`.
-/

/-- A stored `users.models.User` row (fields the serializers read). -/
structure User where
  id : Nat
  email : String
  username : String
  first_name : String
  last_name : String
deriving Repr, DecidableEq

/-- A stored `Subscription` row: `user` follows `author` (both user ids). -/
structure SubscriptionRow where
  user : Nat
  author : Nat
deriving Repr, DecidableEq

/-- A stored `FavouriteList` or `ShoppingList` join row: (user id, recipe id). -/
structure UserRecipeRow where
  user : Nat
  recipe : Nat
deriving Repr, DecidableEq

/-- A stored `Tag` row. -/
structure Tag where
  id : Nat
  name : String
  color : String
  slug : String
deriving Repr, DecidableEq

/-- A stored `Ingredient` row. -/
structure Ingredient where
  id : Nat
  name : String
  measurement_unit : String
deriving Repr, DecidableEq

/-- A stored `IngredientAmount` join row: (recipe id, ingredient id, amount). -/
structure IngredientAmountRow where
  recipe : Nat
  ingredient : Nat
  amount : Int
deriving Repr, DecidableEq

/-- A stored `Recipe` row.  `tags` is the many-to-many tag-id set (kept as a
list, in insertion order); `last_editor` is the last-modifying user. -/
structure Recipe where
  id : Nat
  name : String
  image : String
  text : String
  cooking_time : Int
  author : Nat
  tags : List Nat
  last_editor : Option Nat
deriving Repr, DecidableEq

/-- The database visible to the serializers, one list per table.
`nextRecipeId` models the autoincrement primary key of `Recipe`. -/
structure DB where
  users : List User
  tags : List Tag
  ingredients : List Ingredient
  recipes : List Recipe
  ingredientAmounts : List IngredientAmountRow
  favouriteList : List UserRecipeRow
  shoppingList : List UserRecipeRow
  subscriptions : List SubscriptionRow
  nextRecipeId : Nat
deriving Repr, DecidableEq

/-- The request context a serializer sees: `request.user` (`none` is an
anonymous viewer), the path keyword arguments, and the query parameters. -/
structure Ctx where
  viewer : Option Nat
  kwargs_recipe_id : Option Nat
  kwargs_author_id : Option Nat
  query_recipes_limit : Option String
deriving Repr, DecidableEq

/-- `CustomUserSerializer.get_is_subscribed`: `False` for an anonymous
viewer, otherwise `Subscription.objects.filter(author=obj, user=user).exists()`. -/
def CustomUserSerializer_get_is_subscribed (db : DB) (ctx : Ctx) (obj : User) : Bool :=
  match ctx.viewer with
  | none => false
  | some u => db.subscriptions.any (fun s => s.author == obj.id && s.user == u)

/-- Output of `CustomUserSerializer` (its `Meta.fields`). -/
structure UserRepr where
  email : String
  id : Nat
  username : String
  first_name : String
  last_name : String
  is_subscribed : Bool
deriving Repr, DecidableEq

/-- Rendering a user through `CustomUserSerializer`. -/
def CustomUserSerializer_repr (db : DB) (ctx : Ctx) (obj : User) : UserRepr :=
  ⟨obj.email, obj.id, obj.username, obj.first_name, obj.last_name,
    CustomUserSerializer_get_is_subscribed db ctx obj⟩

/-- Output of `TagSerializer`. -/
structure TagRepr where
  id : Nat
  name : String
  color : String
  slug : String
deriving Repr, DecidableEq

/-- Rendering a tag through `TagSerializer` (pure field projection). -/
def TagSerializer_repr (t : Tag) : TagRepr :=
  ⟨t.id, t.name, t.color, t.slug⟩

/-- Foreign-key dereference of a tag id (the ORM guarantees existence;
a dangling id yields a blank row carrying the id). -/
def findTag (db : DB) (i : Nat) : Tag :=
  (db.tags.find? (fun t => t.id == i)).getD ⟨i, "", "", ""⟩

/-- Foreign-key dereference of an ingredient id. -/
def findIngredient (db : DB) (i : Nat) : Ingredient :=
  (db.ingredients.find? (fun t => t.id == i)).getD ⟨i, "", ""⟩

/-- Foreign-key dereference of a user id. -/
def findUser (db : DB) (i : Nat) : User :=
  (db.users.find? (fun u => u.id == i)).getD ⟨i, "", "", "", ""⟩

/-- Foreign-key dereference of a recipe id. -/
def findRecipe (db : DB) (i : Nat) : Recipe :=
  (db.recipes.find? (fun r => r.id == i)).getD ⟨i, "", "", "", 0, 0, [], none⟩

/-- Output of `IngredientAmountShowSerializer`: the linked ingredient's
identity fields next to the stored amount. -/
structure IngredientLineRepr where
  id : Nat
  name : String
  measurement_unit : String
  amount : Int
deriving Repr, DecidableEq

/-- Rendering one `IngredientAmount` row through `IngredientAmountShowSerializer`. -/
def IngredientAmountShowSerializer_repr (db : DB) (ia : IngredientAmountRow) : IngredientLineRepr :=
  let ing := findIngredient db ia.ingredient
  ⟨ing.id, ing.name, ing.measurement_unit, ia.amount⟩

/-- Output of `RecipeReadOnlySerializer` (the minimal recipe card). -/
structure RecipeCardRepr where
  id : Nat
  name : String
  image : String
  cooking_time : Int
deriving Repr, DecidableEq

/-- Rendering a recipe through `RecipeReadOnlySerializer`. -/
def RecipeReadOnlySerializer_repr (obj : Recipe) : RecipeCardRepr :=
  ⟨obj.id, obj.name, obj.image, obj.cooking_time⟩

/-- `RecipeViewSerializer.get_ingredients`:
`IngredientAmount.objects.filter(recipe=obj)` rendered many. -/
def RecipeViewSerializer_get_ingredients (db : DB) (obj : Recipe) : List IngredientLineRepr :=
  ((db.ingredientAmounts.filter (fun ia => ia.recipe == obj.id)).map
    (IngredientAmountShowSerializer_repr db))

/-- `RecipeViewSerializer.get_is_favorited`: `False` for an anonymous viewer,
otherwise `FavouriteList.objects.filter(user=user, recipe_id=obj.id).exists()`. -/
def RecipeViewSerializer_get_is_favorited (db : DB) (ctx : Ctx) (obj : Recipe) : Bool :=
  match ctx.viewer with
  | none => false
  | some u => db.favouriteList.any (fun f => f.user == u && f.recipe == obj.id)

/-- `RecipeViewSerializer.get_is_in_shopping_cart`: `False` for an anonymous
viewer, otherwise `ShoppingList.objects.filter(user=user, recipe_id=obj.id).exists()`. -/
def RecipeViewSerializer_get_is_in_shopping_cart (db : DB) (ctx : Ctx) (obj : Recipe) : Bool :=
  match ctx.viewer with
  | none => false
  | some u => db.shoppingList.any (fun f => f.user == u && f.recipe == obj.id)

/-- Output of `RecipeViewSerializer` (the full recipe representation). -/
structure RecipeViewRepr where
  id : Nat
  tags : List TagRepr
  author : UserRepr
  ingredients : List IngredientLineRepr
  is_favorited : Bool
  is_in_shopping_cart : Bool
  name : String
  image : String
  text : String
  cooking_time : Int
deriving Repr, DecidableEq

/-- Rendering a recipe through `RecipeViewSerializer`: tags and author are
nested serializers, the other derived fields are the method fields above. -/
def RecipeViewSerializer_repr (db : DB) (ctx : Ctx) (obj : Recipe) : RecipeViewRepr :=
  ⟨obj.id,
    obj.tags.map (fun i => TagSerializer_repr (findTag db i)),
    CustomUserSerializer_repr db ctx (findUser db obj.author),
    RecipeViewSerializer_get_ingredients db obj,
    RecipeViewSerializer_get_is_favorited db ctx obj,
    RecipeViewSerializer_get_is_in_shopping_cart db ctx obj,
    obj.name, obj.image, obj.text, obj.cooking_time⟩

/-- One entry of the `ingredients` write payload, after
`IngredientAddToRecipeSerializer` field handling: a resolved ingredient id
(`PrimaryKeyRelatedField`) and an integer amount. -/
structure IngredientEntry where
  id : Nat
  amount : Int
deriving Repr, DecidableEq

/-- The distinct validation errors `RecipeCreateUpdateSerializer` raises. -/
inductive RecipeValidationError where
  | emptyIngredients
  | duplicateIngredients
  | nonPositiveAmount
  | emptyTags
  | duplicateTags
  | cookingTimeNotInt
  | cookingTimeNonPositive
deriving Repr, DecidableEq

/-- A Python value arriving in the `cooking_time` slot: an int, or anything
else (the source guards with `isinstance(data, int)`). -/
inductive PyValue where
  | int : Int → PyValue
  | nonInt : PyValue
deriving Repr, DecidableEq

/-- `RecipeCreateUpdateSerializer.validate_ingredients`: rejects an empty
list, then duplicate ingredient ids (`len(data) != len(set(ids))`), then any
entry with `amount <= 0` (the source loop raises at the first such entry). -/
def validate_ingredients (data : List IngredientEntry) :
    Except RecipeValidationError (List IngredientEntry) :=
  if data.isEmpty then .error .emptyIngredients
  else if data.length ≠ (data.map (fun i => i.id)).dedup.length then
    .error .duplicateIngredients
  else if data.any (fun i => i.amount ≤ 0) then .error .nonPositiveAmount
  else .ok data

/-- `RecipeCreateUpdateSerializer.validate_tags`: rejects an empty list,
then duplicate tags (`len(data) != len(set(data))`). -/
def validate_tags (data : List Nat) : Except RecipeValidationError (List Nat) :=
  if data.isEmpty then .error .emptyTags
  else if data.length ≠ data.dedup.length then .error .duplicateTags
  else .ok data

/-- `RecipeCreateUpdateSerializer.validate_cooking_time`: rejects a value
that is not an int, then an int `<= 0`. -/
def validate_cooking_time (data : PyValue) : Except RecipeValidationError Int :=
  match data with
  | .nonInt => .error .cookingTimeNotInt
  | .int n => if n ≤ 0 then .error .cookingTimeNonPositive else .ok n

/-- The write payload of `RecipeCreateUpdateSerializer` as it reaches the
`validate_*` hooks.  `author` is read-only on the serializer and supplied by
the calling view as the requesting user, so it is not validated here. -/
structure RecipePayload where
  tags : List Nat
  ingredients : List IngredientEntry
  name : String
  image : String
  text : String
  cooking_time : PyValue
deriving Repr, DecidableEq

/-- The validated data the create/update hooks receive. -/
structure ValidatedRecipe where
  tags : List Nat
  ingredients : List IngredientEntry
  name : String
  image : String
  text : String
  cooking_time : Int
  author : Nat
deriving Repr, DecidableEq

/-- Running all three `validate_*` field hooks over a payload (the framework
runs each field's validator and collects the validated data). -/
def validateRecipePayload (author : Nat) (p : RecipePayload) :
    Except RecipeValidationError ValidatedRecipe := do
  let ings ← validate_ingredients p.ingredients
  let tags ← validate_tags p.tags
  let ct ← validate_cooking_time p.cooking_time
  .ok ⟨tags, ings, p.name, p.image, p.text, ct, author⟩

/-- `RecipeCreateUpdateSerializer.add_ingredients`: one
`IngredientAmount.objects.create(recipe=recipe, ingredient=ing_id, amount=...)`
per entry, in list order. -/
def add_ingredients (db : DB) (ings : List IngredientEntry) (recipeId : Nat) : DB :=
  { db with ingredientAmounts :=
      db.ingredientAmounts ++ ings.map (fun e => ⟨recipeId, e.id, e.amount⟩) }

/-- Saving changed fields of the recipe row with the given id
(the ORM instance assignment plus `save`). -/
def setRecipe (db : DB) (recipeId : Nat) (f : Recipe → Recipe) : DB :=
  { db with recipes := db.recipes.map (fun r => if r.id == recipeId then f r else r) }

/-- Modelled from the spec: `instance.ingredients.clear()` — the `Recipe`
model and its `ingredients` relation live outside this file; per the spec,
clearing it "deletes all existing ingredient-amount rows for the recipe". -/
def Recipe_ingredients_clear (db : DB) (recipeId : Nat) : DB :=
  { db with ingredientAmounts :=
      db.ingredientAmounts.filter (fun ia => ia.recipe != recipeId) }

/-- `RecipeCreateUpdateSerializer.update`: records `request.user` as
`last_editor`, writes the scalar fields, replaces the tag set when a
(non-empty) tag list is present, and when a (non-empty) ingredient list is
present clears all of the recipe's ingredient-amount rows and re-inserts the
supplied ones. -/
def RecipeCreateUpdateSerializer_update (db : DB) (ctx : Ctx) (recipeId : Nat)
    (v : ValidatedRecipe) : DB :=
  let db1 := setRecipe db recipeId (fun r =>
    { r with last_editor := ctx.viewer, name := v.name, image := v.image,
             text := v.text, cooking_time := v.cooking_time })
  let db2 :=
    if v.tags.isEmpty then db1
    else setRecipe db1 recipeId (fun r => { r with tags := v.tags })
  if v.ingredients.isEmpty then db2
  else add_ingredients (Recipe_ingredients_clear db2 recipeId) v.ingredients recipeId

/-- `RecipeCreateUpdateSerializer.create`: persists the recipe row (a fresh
primary key), inserts one IngredientAmount row per entry, then attaches the
tag set; the returned instance is the persisted recipe. -/
def RecipeCreateUpdateSerializer_create (db : DB) (v : ValidatedRecipe) :
    DB × Recipe :=
  let rid := db.nextRecipeId
  let newR : Recipe := ⟨rid, v.name, v.image, v.text, v.cooking_time, v.author, [], none⟩
  let db1 : DB := { db with recipes := db.recipes ++ [newR], nextRecipeId := rid + 1 }
  let db2 := add_ingredients db1 v.ingredients rid
  let db3 := setRecipe db2 rid (fun r => { r with tags := v.tags })
  (db3, { newR with tags := v.tags })

/-- `RecipeCreateUpdateSerializer.to_representation`: the write serializer
renders its instance through `RecipeViewSerializer` under the same request. -/
def RecipeCreateUpdateSerializer_to_representation (db : DB) (ctx : Ctx)
    (obj : Recipe) : RecipeViewRepr :=
  RecipeViewSerializer_repr db ctx obj

/-- A create request end to end, as the view drives it: run the field
validators, run `create`, then render the result through
`to_representation` against the post-create state. -/
def createRecipeAndRender (db : DB) (ctx : Ctx) (author : Nat)
    (p : RecipePayload) : Except RecipeValidationError (DB × RecipeViewRepr) := do
  let v ← validateRecipePayload author p
  let res := RecipeCreateUpdateSerializer_create db v
  .ok (res.1, RecipeCreateUpdateSerializer_to_representation res.1 ctx res.2)

/-- An update request end to end, as the view drives it: run the field
validators, run `update` on the instance resolved from its id, then render
the returned instance (whose saved fields are the recipe's row after the
update) through `to_representation` against the post-update state. -/
def updateRecipeAndRender (db : DB) (ctx : Ctx) (author recipeId : Nat)
    (p : RecipePayload) : Except RecipeValidationError (DB × RecipeViewRepr) := do
  let v ← validateRecipePayload author p
  let db2 := RecipeCreateUpdateSerializer_update db ctx recipeId v
  .ok (db2, RecipeCreateUpdateSerializer_to_representation db2 ctx
    (findRecipe db2 recipeId))

/-- Failure of queryset slicing: the underlying ORM rejects a negative
slice bound. -/
inductive QuerysetError where
  | negativeIndexing
deriving Repr, DecidableEq

/-- Value of a non-empty all-digit character list, `none` otherwise. -/
def digitsVal? (cs : List Char) : Option Nat :=
  if cs.isEmpty || cs.any (fun c => !c.isDigit) then none
  else some (cs.foldl (fun acc c => acc * 10 + (c.toNat - 48)) 0)

/-- Python `int(s)` on a query-parameter string (a `ValueError` becomes
`none`): an optional sign followed by at least one digit.  Surrounding
whitespace and digit-group underscores are not modelled. -/
def pyInt? (s : String) : Option Int :=
  match s.data with
  | [] => none
  | '-' :: cs => (digitsVal? cs).map (fun n => -(n : Int))
  | '+' :: cs => (digitsVal? cs).map (fun n => (n : Int))
  | cs => (digitsVal? cs).map (fun n => (n : Int))

/-- `SubscriptionSerializer.get_recipes`: reads `recipes_limit` from the
query parameters and applies `int(...)` (a `TypeError` on an absent value or
a `ValueError` on a non-numeric one leaves the limit `None`; `pyInt?`
models the parse); takes the target author's recipes and, when the limit is
truthy (a non-zero int), slices `qs[:recipes_limit]` — a negative bound is
rejected by the ORM's slicing; renders many through
`RecipeReadOnlySerializer`. -/
def SubscriptionSerializer_get_recipes (db : DB) (ctx : Ctx)
    (obj : SubscriptionRow) : Except QuerysetError (List RecipeCardRepr) :=
  let limit : Option Int :=
    match ctx.query_recipes_limit with
    | none => none
    | some s => pyInt? s
  let qs := db.recipes.filter (fun r => r.author == obj.author)
  match limit with
  | some n =>
      if n ≠ 0 then
        if 0 ≤ n then .ok ((qs.take n.toNat).map RecipeReadOnlySerializer_repr)
        else .error .negativeIndexing
      else .ok (qs.map RecipeReadOnlySerializer_repr)
  | none => .ok (qs.map RecipeReadOnlySerializer_repr)

/-- The failures subscription creation can surface.  A missing target is a
not-found (404) error, distinct from the two user-facing validation errors;
an anonymous viewer has no `follower` manager in the source (an attribute
error), kept separate here. -/
inductive SubscribeError where
  | notFound
  | anonymousViewer
  | selfSubscription
  | alreadySubscribed
deriving Repr, DecidableEq

/-- `SubscriptionSerializer.get_user_and_author`: resolves the target user
from the `author_id` path parameter (`get_object_or_404`, failing not-found
when absent or unmatched) and takes the viewer from the request. -/
def SubscriptionSerializer_get_user_and_author (db : DB) (ctx : Ctx) :
    Except SubscribeError (Option Nat × User) :=
  match ctx.kwargs_author_id with
  | none => .error .notFound
  | some aid =>
    match db.users.find? (fun u => u.id == aid) with
    | none => .error .notFound
    | some author => .ok (ctx.viewer, author)

/-- `SubscriptionSerializer.validate`: resolves viewer and target, rejects
self-subscription (`user == author`), then an already existing
(viewer, target) subscription (`user.follower.filter(author=author).exists()`,
the `Subscription` rows with this user), and otherwise returns the pair. -/
def SubscriptionSerializer_validate (db : DB) (ctx : Ctx) :
    Except SubscribeError (Nat × Nat) :=
  match SubscriptionSerializer_get_user_and_author db ctx with
  | .error e => .error e
  | .ok (viewer, author) =>
    if viewer = some author.id then .error .selfSubscription
    else
      match viewer with
      | none => .error .anonymousViewer
      | some uid =>
        if db.subscriptions.any (fun s => s.user == uid && s.author == author.id) then
          .error .alreadySubscribed
        else .ok (uid, author.id)

/-- Failures of favourite / shopping-list creation: the recipe path
parameter may not resolve (a 404 raised before any write); an anonymous
viewer has no user row to attach. -/
inductive MembershipError where
  | notFound
  | anonymousViewer
deriving Repr, DecidableEq

/-- The backing entity of the membership serializers:
`FavouriteListSerializer` targets `FavouriteList`; `ShoppingListSerializer`
overrides only the model to `ShoppingList`, inheriting create and render. -/
inductive JoinModel where
  | favourite
  | shopping
deriving Repr, DecidableEq

/-- The shared `create` body of `FavouriteListSerializer` (inherited
unchanged by `ShoppingListSerializer`): resolve the recipe from the
`recipe_id` path parameter (`get_object_or_404`), attach the requesting
user, insert the join row into the subclass's backing table. -/
def membership_create (m : JoinModel) (db : DB) (ctx : Ctx) :
    Except MembershipError (DB × UserRecipeRow) :=
  match ctx.kwargs_recipe_id with
  | none => .error .notFound
  | some rid =>
    match db.recipes.find? (fun r => r.id == rid) with
    | none => .error .notFound
    | some recipe =>
      match ctx.viewer with
      | none => .error .anonymousViewer
      | some uid =>
        match m with
        | .favourite =>
          .ok ({ db with favouriteList := db.favouriteList ++ [⟨uid, recipe.id⟩] },
            ⟨uid, recipe.id⟩)
        | .shopping =>
          .ok ({ db with shoppingList := db.shoppingList ++ [⟨uid, recipe.id⟩] },
            ⟨uid, recipe.id⟩)

/-- `FavouriteListSerializer.create`. -/
def FavouriteListSerializer_create (db : DB) (ctx : Ctx) :
    Except MembershipError (DB × UserRecipeRow) :=
  membership_create .favourite db ctx

/-- `ShoppingListSerializer.create` (inherited from
`FavouriteListSerializer`, over the `ShoppingList` model). -/
def ShoppingListSerializer_create (db : DB) (ctx : Ctx) :
    Except MembershipError (DB × UserRecipeRow) :=
  membership_create .shopping db ctx

/-- `FavouriteListSerializer.to_representation`: the minimal recipe card of
the linked recipe; the join row itself is not exposed. -/
def FavouriteListSerializer_to_representation (db : DB) (row : UserRecipeRow) :
    RecipeCardRepr :=
  RecipeReadOnlySerializer_repr (findRecipe db row.recipe)

/-- `ShoppingListSerializer.to_representation` (inherited unchanged). -/
def ShoppingListSerializer_to_representation (db : DB) (row : UserRecipeRow) :
    RecipeCardRepr :=
  FavouriteListSerializer_to_representation db row

/-- `SubscriptionSerializer.get_is_subscribed`: recomputes the existence
check on the rendered row's own stored (user, author) pair.  The method has
the request context available but never reads it, which the unused argument
records. -/
def SubscriptionSerializer_get_is_subscribed (db : DB) (_ctx : Ctx)
    (obj : SubscriptionRow) : Bool :=
  db.subscriptions.any (fun s => s.user == obj.user && s.author == obj.author)

/-- A list with pairwise-distinct elements keeps its length under `dedup`,
and conversely. -/
theorem length_dedup_eq_iff_nodup {α : Type} [DecidableEq α] (l : List α) :
    l.dedup.length = l.length ↔ l.Nodup := by
  constructor
  · intro h
    have hsub : l.dedup.Sublist l := List.dedup_sublist l
    have : l.dedup = l := hsub.eq_of_length h
    simpa [this] using List.nodup_dedup l
  · intro h
    simp [List.dedup_eq_self.2 h]

/-- C2: recipe write validation rejects, each with its own validation error:
an empty ingredient list, duplicate ingredient ids, a non-positive amount,
an empty tag list, duplicate tag ids, and a non-integer or non-positive
cooking time; and it accepts exactly one ingredient with amount 1, exactly
one tag, and a positive cooking time. -/
theorem recipe_write_validation_cases
    (ings : List IngredientEntry) (tags : List Nat) :
    (validate_ingredients [] = .error .emptyIngredients) ∧
    (ings ≠ [] → ¬(ings.map (fun i => i.id)).Nodup →
      validate_ingredients ings = .error .duplicateIngredients) ∧
    (ings ≠ [] → (ings.map (fun i => i.id)).Nodup →
      (∃ e ∈ ings, e.amount ≤ 0) →
      validate_ingredients ings = .error .nonPositiveAmount) ∧
    (validate_tags [] = .error .emptyTags) ∧
    (tags ≠ [] → ¬tags.Nodup → validate_tags tags = .error .duplicateTags) ∧
    (validate_cooking_time .nonInt = .error .cookingTimeNotInt) ∧
    (∀ n : Int, n ≤ 0 →
      validate_cooking_time (.int n) = .error .cookingTimeNonPositive) ∧
    (∀ (i t a : Nat) (p : RecipePayload) (c : Int), 0 < c →
      p.ingredients = [⟨i, 1⟩] → p.tags = [t] → p.cooking_time = .int c →
      validateRecipePayload a p =
        .ok ⟨[t], [⟨i, 1⟩], p.name, p.image, p.text, c, a⟩) := by
  refine ⟨rfl, ?_, ?_, rfl, ?_, rfl, ?_, ?_⟩
  · intro hne hdup
    have h1 : ings.isEmpty = false := by
      simpa [List.isEmpty_iff] using hne
    have h2 : ings.length ≠ (ings.map (fun i => i.id)).dedup.length := by
      intro h
      apply hdup
      apply (length_dedup_eq_iff_nodup _).1
      rw [List.length_map]
      exact h.symm
    simp [validate_ingredients, h1, h2]
  · intro hne hnodup hex
    have h1 : ings.isEmpty = false := by
      simpa [List.isEmpty_iff] using hne
    have h2 : ings.length = (ings.map (fun i => i.id)).dedup.length := by
      have h := (length_dedup_eq_iff_nodup (ings.map (fun i => i.id))).2 hnodup
      rw [List.length_map] at h
      exact h.symm
    have h3 : ings.any (fun i => i.amount ≤ 0) = true := by
      obtain ⟨e, he, ham⟩ := hex
      simp only [List.any_eq_true]
      exact ⟨e, he, by simpa using ham⟩
    simp [validate_ingredients, h1, h2, h3]
  · intro hne hdup
    have h1 : tags.isEmpty = false := by
      simpa [List.isEmpty_iff] using hne
    have h2 : tags.length ≠ tags.dedup.length := by
      intro h
      exact hdup ((length_dedup_eq_iff_nodup _).1 h.symm)
    simp [validate_tags, h1, h2]
  · intro n hn
    simp [validate_cooking_time, hn]
  · intro i t a p c hc hpi hpt hpc
    have hc2 : ¬(c ≤ 0) := by omega
    simp [validateRecipePayload, validate_ingredients, validate_tags,
      validate_cooking_time, hpi, hpt, hpc, hc2, Bind.bind, Except.bind]

/-- Witness for C2: each rejection and the acceptance at concrete inputs. -/
theorem recipe_write_validation_cases_witness :
    validate_ingredients [⟨1, 1⟩, ⟨1, 2⟩] = .error .duplicateIngredients ∧
    validate_ingredients [⟨1, 1⟩, ⟨2, 0⟩] = .error .nonPositiveAmount ∧
    validate_tags [5, 5] = .error .duplicateTags ∧
    validate_cooking_time (.int 0) = .error .cookingTimeNonPositive ∧
    validateRecipePayload 7 ⟨[3], [⟨2, 1⟩], "n", "im", "tx", .int 4⟩ =
      .ok ⟨[3], [⟨2, 1⟩], "n", "im", "tx", 4, 7⟩ :=
  ⟨(recipe_write_validation_cases [⟨1, 1⟩, ⟨1, 2⟩] []).2.1
      (by decide) (by decide),
    (recipe_write_validation_cases [⟨1, 1⟩, ⟨2, 0⟩] []).2.2.1
      (by decide) (by decide) (by decide),
    (recipe_write_validation_cases [] [5, 5]).2.2.2.2.1
      (by decide) (by decide),
    (recipe_write_validation_cases [] []).2.2.2.2.2.2.1 0 (by decide),
    (recipe_write_validation_cases [] []).2.2.2.2.2.2.2 2 3 7
      ⟨[3], [⟨2, 1⟩], "n", "im", "tx", .int 4⟩ 4
      (by decide) rfl rfl rfl⟩

/-- C3: for every existing state and validated update payload that supplies
a (non-empty) ingredient list, `update` leaves the recipe with exactly one
ingredient-amount row per supplied entry and none of its old ones (full
replace), replaces the tag set wholesale, and records the requesting user as
`last_editor`. -/
theorem update_replaces_ingredients_and_tags (db : DB) (ctx : Ctx)
    (recipeId : Nat) (v : ValidatedRecipe)
    (hi : v.ingredients ≠ []) (ht : v.tags ≠ []) :
    ((RecipeCreateUpdateSerializer_update db ctx recipeId v).ingredientAmounts.filter
        (fun ia => ia.recipe == recipeId)
      = v.ingredients.map (fun e => ⟨recipeId, e.id, e.amount⟩)) ∧
    (∀ r ∈ (RecipeCreateUpdateSerializer_update db ctx recipeId v).recipes,
      r.id = recipeId → r.tags = v.tags ∧ r.last_editor = ctx.viewer) := by
  have hi2 : v.ingredients.isEmpty = false := by simpa [List.isEmpty_iff] using hi
  have ht2 : v.tags.isEmpty = false := by simpa [List.isEmpty_iff] using ht
  constructor
  · simp only [RecipeCreateUpdateSerializer_update, hi2, ht2, Bool.false_eq_true,
      if_false, add_ingredients, Recipe_ingredients_clear, setRecipe]
    rw [List.filter_append]
    have h1 : (db.ingredientAmounts.filter (fun ia => ia.recipe != recipeId)).filter
        (fun ia => ia.recipe == recipeId) = [] := by
      rw [List.filter_eq_nil_iff]
      intro a ha
      have h := (List.mem_filter.1 ha).2
      simp only [bne_iff_ne, ne_eq] at h
      simp [h]
    have h2 : ((v.ingredients.map
          (fun e => (⟨recipeId, e.id, e.amount⟩ : IngredientAmountRow))).filter
        (fun ia => ia.recipe == recipeId))
        = v.ingredients.map (fun e => ⟨recipeId, e.id, e.amount⟩) := by
      rw [List.filter_eq_self]
      intro a ha
      obtain ⟨e, _, rfl⟩ := List.mem_map.1 ha
      simp
    rw [h1, h2, List.nil_append]
  · have hrec : (RecipeCreateUpdateSerializer_update db ctx recipeId v).recipes
        = db.recipes.map (fun r =>
            if r.id == recipeId then
              { r with last_editor := ctx.viewer, name := v.name,
                       image := v.image, text := v.text,
                       cooking_time := v.cooking_time, tags := v.tags }
            else r) := by
      simp only [RecipeCreateUpdateSerializer_update, hi2, ht2, Bool.false_eq_true,
        if_false, add_ingredients, Recipe_ingredients_clear, setRecipe]
      rw [List.map_map]
      apply List.map_congr_left
      intro r _
      by_cases h : r.id = recipeId
      · simp [Function.comp, h]
      · simp [Function.comp, h]
    rw [hrec]
    intro r hr hid
    obtain ⟨r0, _, rfl⟩ := List.mem_map.1 hr
    by_cases h : r0.id = recipeId
    · simp [h]
    · simp [h] at hid

/-- Witness for C3: a recipe stored with ingredient 1 is updated with the
single-entry list for ingredient 2; exactly one line remains, for
ingredient 2, the tag set is replaced, and the editor is recorded. -/
theorem update_replaces_ingredients_and_tags_witness :
    ((1 : Nat), (1 : Int)) ≠ ((2 : Nat), (1 : Int)) ∧
    ((RecipeCreateUpdateSerializer_update
        ⟨[⟨9, "u", "e", "f", "l"⟩], [], [], [⟨5, "r", "i", "t", 3, 9, [4], none⟩],
          [⟨5, 1, 3⟩], [], [], [], 6⟩
        ⟨some 9, none, none, none⟩ 5
        ⟨[7], [⟨2, 1⟩], "n", "im", "tx", 8, 9⟩).ingredientAmounts.filter
          (fun ia => ia.recipe == 5)
        = [⟨5, 2, 1⟩] ∧
      ∀ r ∈ (RecipeCreateUpdateSerializer_update
        ⟨[⟨9, "u", "e", "f", "l"⟩], [], [], [⟨5, "r", "i", "t", 3, 9, [4], none⟩],
          [⟨5, 1, 3⟩], [], [], [], 6⟩
        ⟨some 9, none, none, none⟩ 5
        ⟨[7], [⟨2, 1⟩], "n", "im", "tx", 8, 9⟩).recipes,
        r.id = 5 → r.tags = [7] ∧ r.last_editor = some 9) :=
  ⟨by decide,
    update_replaces_ingredients_and_tags
      ⟨[⟨9, "u", "e", "f", "l"⟩], [], [], [⟨5, "r", "i", "t", 3, 9, [4], none⟩],
        [⟨5, 1, 3⟩], [], [], [], 6⟩
      ⟨some 9, none, none, none⟩ 5
      ⟨[7], [⟨2, 1⟩], "n", "im", "tx", 8, 9⟩
      (by decide) (by decide)⟩

/-- C4 counterexample: `recipes_limit = "0"` is supplied and parses as the
integer 0, yet with two authored recipes the rendered list still has both
entries — it is not truncated to the first 0 as the claim requires. -/
theorem get_recipes_zero_limit_counterexample :
    pyInt? "0" = some 0 ∧
    SubscriptionSerializer_get_recipes
        ⟨[], [], [],
          [⟨1, "a", "i", "t", 5, 3, [], none⟩, ⟨2, "b", "j", "u", 6, 3, [], none⟩],
          [], [], [], [⟨9, 3⟩], 3⟩
        ⟨some 9, none, none, some "0"⟩ ⟨9, 3⟩
      = .ok [⟨1, "a", "i", 5⟩, ⟨2, "b", "j", 6⟩] :=
  ⟨rfl, rfl⟩

/-- C4 (amended): the recipes list is truncated to the first N whenever
`recipes_limit` is supplied and parses as a positive integer N, and is
unbounded (all authored recipes) when the parameter is absent, does not
parse as an integer, or parses as 0. -/
theorem get_recipes_limit_amended (db : DB) (ctx : Ctx) (obj : SubscriptionRow) :
    (∀ s n, ctx.query_recipes_limit = some s → pyInt? s = some n → 0 < n →
      SubscriptionSerializer_get_recipes db ctx obj =
        .ok (((db.recipes.filter (fun r => r.author == obj.author)).take
            n.toNat).map RecipeReadOnlySerializer_repr)) ∧
    ((ctx.query_recipes_limit = none ∨
        (∃ s, ctx.query_recipes_limit = some s ∧
          (pyInt? s = none ∨ pyInt? s = some 0))) →
      SubscriptionSerializer_get_recipes db ctx obj =
        .ok ((db.recipes.filter (fun r => r.author == obj.author)).map
          RecipeReadOnlySerializer_repr)) := by
  constructor
  · intro s n hs hn hpos
    have h0 : n ≠ 0 := by omega
    have h1 : 0 ≤ n := by omega
    simp [SubscriptionSerializer_get_recipes, hs, hn, h0, h1]
  · intro h
    rcases h with h | ⟨s, hs, h⟩
    · simp [SubscriptionSerializer_get_recipes, h]
    · rcases h with h | h <;> simp [SubscriptionSerializer_get_recipes, hs, h]

/-- Witness for the amended C4: with two authored recipes,
`recipes_limit = "1"` yields exactly one card, and an absent parameter
yields both. -/
theorem get_recipes_limit_amended_witness :
    SubscriptionSerializer_get_recipes
        ⟨[], [], [],
          [⟨1, "a", "i", "t", 5, 3, [], none⟩, ⟨2, "b", "j", "u", 6, 3, [], none⟩],
          [], [], [], [⟨9, 3⟩], 3⟩
        ⟨some 9, none, none, some "1"⟩ ⟨9, 3⟩
      = .ok [⟨1, "a", "i", 5⟩] ∧
    SubscriptionSerializer_get_recipes
        ⟨[], [], [],
          [⟨1, "a", "i", "t", 5, 3, [], none⟩, ⟨2, "b", "j", "u", 6, 3, [], none⟩],
          [], [], [], [⟨9, 3⟩], 3⟩
        ⟨some 9, none, none, none⟩ ⟨9, 3⟩
      = .ok [⟨1, "a", "i", 5⟩, ⟨2, "b", "j", 6⟩] :=
  ⟨(get_recipes_limit_amended
        ⟨[], [], [],
          [⟨1, "a", "i", "t", 5, 3, [], none⟩, ⟨2, "b", "j", "u", 6, 3, [], none⟩],
          [], [], [], [⟨9, 3⟩], 3⟩
        ⟨some 9, none, none, some "1"⟩ ⟨9, 3⟩).1 "1" 1 rfl rfl (by decide),
    (get_recipes_limit_amended
        ⟨[], [], [],
          [⟨1, "a", "i", "t", 5, 3, [], none⟩, ⟨2, "b", "j", "u", 6, 3, [], none⟩],
          [], [], [], [⟨9, 3⟩], 3⟩
        ⟨some 9, none, none, none⟩ ⟨9, 3⟩).2 (Or.inl rfl)⟩

/-- C5: with the target resolved, subscription validation rejects a
self-subscription with a validation error, rejects a duplicate subscription
with a validation error, and otherwise returns the (viewer, target) pair;
the not-found failure of target resolution is a distinct error. -/
theorem subscription_validate_cases (db : DB) (ctx : Ctx) (uid aid : Nat)
    (author : User)
    (hv : ctx.viewer = some uid) (ha : ctx.kwargs_author_id = some aid)
    (hfind : db.users.find? (fun u => u.id == aid) = some author) :
    (uid = aid → SubscriptionSerializer_validate db ctx = .error .selfSubscription) ∧
    (uid ≠ aid →
      (∃ s ∈ db.subscriptions, s.user = uid ∧ s.author = aid) →
      SubscriptionSerializer_validate db ctx = .error .alreadySubscribed) ∧
    (uid ≠ aid →
      (∀ s ∈ db.subscriptions, ¬(s.user = uid ∧ s.author = aid)) →
      SubscriptionSerializer_validate db ctx = .ok (uid, aid)) := by
  have haid : author.id = aid := by
    have h := List.find?_some hfind
    simpa using h
  subst haid
  refine ⟨?_, ?_, ?_⟩
  · intro h
    simp [SubscriptionSerializer_validate,
      SubscriptionSerializer_get_user_and_author, ha, hfind, hv, h]
  · intro hne hex
    have hany : db.subscriptions.any
        (fun s => s.user == uid && s.author == author.id) = true := by
      simp only [List.any_eq_true]
      obtain ⟨s, hs, h1, h2⟩ := hex
      exact ⟨s, hs, by simp [h1, h2]⟩
    simp [SubscriptionSerializer_validate,
      SubscriptionSerializer_get_user_and_author, ha, hfind, hv, hne, hany]
  · intro hne hall
    have hany : db.subscriptions.any
        (fun s => s.user == uid && s.author == author.id) = false := by
      rw [List.any_eq_false]
      intro s hs
      have h := hall s hs
      simp only [Bool.and_eq_true, beq_iff_eq]
      tauto
    simp [SubscriptionSerializer_validate,
      SubscriptionSerializer_get_user_and_author, ha, hfind, hv, hne, hany]

/-- Witness for C5: a self-subscription, a duplicate, and a fresh pair at
concrete states. -/
theorem subscription_validate_cases_witness :
    SubscriptionSerializer_validate
        ⟨[⟨2, "b", "b", "b", "b"⟩], [], [], [], [], [], [], [⟨1, 2⟩], 1⟩
        ⟨some 2, none, some 2, none⟩
      = .error .selfSubscription ∧
    SubscriptionSerializer_validate
        ⟨[⟨2, "b", "b", "b", "b"⟩], [], [], [], [], [], [], [⟨1, 2⟩], 1⟩
        ⟨some 1, none, some 2, none⟩
      = .error .alreadySubscribed ∧
    SubscriptionSerializer_validate
        ⟨[⟨2, "b", "b", "b", "b"⟩], [], [], [], [], [], [], [⟨2, 1⟩], 1⟩
        ⟨some 1, none, some 2, none⟩
      = .ok (1, 2) :=
  ⟨(subscription_validate_cases
        ⟨[⟨2, "b", "b", "b", "b"⟩], [], [], [], [], [], [], [⟨1, 2⟩], 1⟩
        ⟨some 2, none, some 2, none⟩ 2 2 ⟨2, "b", "b", "b", "b"⟩
        rfl rfl (by decide)).1 rfl,
    (subscription_validate_cases
        ⟨[⟨2, "b", "b", "b", "b"⟩], [], [], [], [], [], [], [⟨1, 2⟩], 1⟩
        ⟨some 1, none, some 2, none⟩ 1 2 ⟨2, "b", "b", "b", "b"⟩
        rfl rfl (by decide)).2.1 (by decide) (by decide),
    (subscription_validate_cases
        ⟨[⟨2, "b", "b", "b", "b"⟩], [], [], [], [], [], [], [⟨2, 1⟩], 1⟩
        ⟨some 1, none, some 2, none⟩ 1 2 ⟨2, "b", "b", "b", "b"⟩
        rfl rfl (by decide)).2.2 (by decide) (by decide)⟩

/-- C6: when the recipe path parameter does not resolve, favourite (and
shopping-list) creation fails not-found, producing no successor state — no
join row is written; when it resolves and the viewer is a user, exactly the
one join row (viewer, recipe) is appended and every other table is kept. -/
theorem membership_create_not_found_or_insert (db : DB) (ctx : Ctx) :
    (∀ rid, ctx.kwargs_recipe_id = some rid →
      db.recipes.find? (fun r => r.id == rid) = none →
      FavouriteListSerializer_create db ctx = .error .notFound ∧
      ShoppingListSerializer_create db ctx = .error .notFound) ∧
    (∀ rid recipe uid, ctx.kwargs_recipe_id = some rid →
      db.recipes.find? (fun r => r.id == rid) = some recipe →
      ctx.viewer = some uid →
      FavouriteListSerializer_create db ctx =
        .ok ({ db with favouriteList := db.favouriteList ++ [⟨uid, recipe.id⟩] },
          ⟨uid, recipe.id⟩)) := by
  constructor
  · intro rid h1 h2
    constructor <;>
      simp [FavouriteListSerializer_create, ShoppingListSerializer_create,
        membership_create, h1, h2]
  · intro rid recipe uid h1 h2 h3
    simp [FavouriteListSerializer_create, membership_create, h1, h2, h3]

/-- Witness for C6: a dangling recipe id fails not-found; an existing one
inserts exactly the (viewer, recipe) row. -/
theorem membership_create_not_found_or_insert_witness :
    FavouriteListSerializer_create
        ⟨[], [], [], [⟨4, "r", "i", "t", 3, 9, [], none⟩], [], [], [], [], 5⟩
        ⟨some 7, some 99, none, none⟩
      = .error .notFound ∧
    ShoppingListSerializer_create
        ⟨[], [], [], [⟨4, "r", "i", "t", 3, 9, [], none⟩], [], [], [], [], 5⟩
        ⟨some 7, some 99, none, none⟩
      = .error .notFound ∧
    FavouriteListSerializer_create
        ⟨[], [], [], [⟨4, "r", "i", "t", 3, 9, [], none⟩], [], [], [], [], 5⟩
        ⟨some 7, some 4, none, none⟩
      = .ok (⟨[], [], [], [⟨4, "r", "i", "t", 3, 9, [], none⟩], [], [⟨7, 4⟩], [], [], 5⟩,
          ⟨7, 4⟩) :=
  ⟨((membership_create_not_found_or_insert
        ⟨[], [], [], [⟨4, "r", "i", "t", 3, 9, [], none⟩], [], [], [], [], 5⟩
        ⟨some 7, some 99, none, none⟩).1 99 rfl (by decide)).1,
    ((membership_create_not_found_or_insert
        ⟨[], [], [], [⟨4, "r", "i", "t", 3, 9, [], none⟩], [], [], [], [], 5⟩
        ⟨some 7, some 99, none, none⟩).1 99 rfl (by decide)).2,
    (membership_create_not_found_or_insert
        ⟨[], [], [], [⟨4, "r", "i", "t", 3, 9, [], none⟩], [], [], [], [], 5⟩
        ⟨some 7, some 4, none, none⟩).2 4 ⟨4, "r", "i", "t", 3, 9, [], none⟩ 7
        rfl (by decide) rfl⟩

/-- C9: the shopping-list serializer is behaviourally identical to the
favourite serializer, differing only in the backing table: identical error
behaviour, the same inserted row (into `ShoppingList` instead of
`FavouriteList`, all other tables kept), and the same rendering as the
minimal recipe card of the linked recipe. -/
theorem shopping_mirrors_favourite (db : DB) (ctx : Ctx) :
    (∀ e, FavouriteListSerializer_create db ctx = .error e ↔
      ShoppingListSerializer_create db ctx = .error e) ∧
    (∀ dbF rowF dbS rowS,
      FavouriteListSerializer_create db ctx = .ok (dbF, rowF) →
      ShoppingListSerializer_create db ctx = .ok (dbS, rowS) →
      rowF = rowS ∧
      dbF.favouriteList = db.favouriteList ++ [rowF] ∧
      dbS.shoppingList = db.shoppingList ++ [rowF] ∧
      dbF.shoppingList = db.shoppingList ∧
      dbS.favouriteList = db.favouriteList) ∧
    (∀ row, ShoppingListSerializer_to_representation db row =
        FavouriteListSerializer_to_representation db row ∧
      ShoppingListSerializer_to_representation db row =
        RecipeReadOnlySerializer_repr (findRecipe db row.recipe)) := by
  refine ⟨?_, ?_, fun row => ⟨rfl, rfl⟩⟩
  · intro e
    simp only [FavouriteListSerializer_create, ShoppingListSerializer_create,
      membership_create]
    cases h1 : ctx.kwargs_recipe_id with
    | none => simp
    | some rid =>
      cases h2 : db.recipes.find? (fun r => r.id == rid) with
      | none => simp [h2]
      | some recipe =>
        cases h3 : ctx.viewer with
        | none => simp [h2, h3]
        | some uid => simp [h2, h3]
  · intro dbF rowF dbS rowS hF hS
    cases h1 : ctx.kwargs_recipe_id with
    | none =>
      simp [FavouriteListSerializer_create, membership_create, h1] at hF
    | some rid =>
      cases h2 : db.recipes.find? (fun r => r.id == rid) with
      | none =>
        simp [FavouriteListSerializer_create, membership_create, h1, h2] at hF
      | some recipe =>
        cases h3 : ctx.viewer with
        | none =>
          simp [FavouriteListSerializer_create, membership_create, h1, h2, h3] at hF
        | some uid =>
          simp only [FavouriteListSerializer_create, ShoppingListSerializer_create,
            membership_create, h1, h2, h3, Except.ok.injEq, Prod.mk.injEq] at hF hS
          obtain ⟨hF1, hF2⟩ := hF
          obtain ⟨hS1, hS2⟩ := hS
          subst hF1
          subst hF2
          subst hS1
          subst hS2
          simp

/-- Witness for C9 at a concrete state: both creates succeed with the same
row, into their respective tables, and render identically. -/
theorem shopping_mirrors_favourite_witness :
    ((⟨7, 4⟩ : UserRecipeRow) = ⟨7, 4⟩ ∧
      (⟨[], [], [], [⟨4, "r", "i", "t", 3, 9, [], none⟩], [], [⟨7, 4⟩], [], [], 5⟩ : DB).favouriteList
        = ([] : List UserRecipeRow) ++ [⟨7, 4⟩] ∧
      (⟨[], [], [], [⟨4, "r", "i", "t", 3, 9, [], none⟩], [], [], [⟨7, 4⟩], [], 5⟩ : DB).shoppingList
        = ([] : List UserRecipeRow) ++ [⟨7, 4⟩] ∧
      (⟨[], [], [], [⟨4, "r", "i", "t", 3, 9, [], none⟩], [], [⟨7, 4⟩], [], [], 5⟩ : DB).shoppingList
        = ([] : List UserRecipeRow) ∧
      (⟨[], [], [], [⟨4, "r", "i", "t", 3, 9, [], none⟩], [], [], [⟨7, 4⟩], [], 5⟩ : DB).favouriteList
        = ([] : List UserRecipeRow)) ∧
    (ShoppingListSerializer_to_representation
        ⟨[], [], [], [⟨4, "r", "i", "t", 3, 9, [], none⟩], [], [], [], [], 5⟩ ⟨7, 4⟩
      = FavouriteListSerializer_to_representation
        ⟨[], [], [], [⟨4, "r", "i", "t", 3, 9, [], none⟩], [], [], [], [], 5⟩ ⟨7, 4⟩) :=
  ⟨(shopping_mirrors_favourite
      ⟨[], [], [], [⟨4, "r", "i", "t", 3, 9, [], none⟩], [], [], [], [], 5⟩
      ⟨some 7, some 4, none, none⟩).2.1
      ⟨[], [], [], [⟨4, "r", "i", "t", 3, 9, [], none⟩], [], [⟨7, 4⟩], [], [], 5⟩ ⟨7, 4⟩
      ⟨[], [], [], [⟨4, "r", "i", "t", 3, 9, [], none⟩], [], [], [⟨7, 4⟩], [], 5⟩ ⟨7, 4⟩
      rfl rfl,
    ((shopping_mirrors_favourite
      ⟨[], [], [], [⟨4, "r", "i", "t", 3, 9, [], none⟩], [], [], [], [], 5⟩
      ⟨some 7, some 4, none, none⟩).2.2 ⟨7, 4⟩).1⟩

/-- The recipe instance returned by `create` is persisted: it is in the
post-create recipes table, carries the fresh primary key, and the two
viewer-relative tables are untouched by create. -/
theorem create_persists (db : DB) (v : ValidatedRecipe) :
    (RecipeCreateUpdateSerializer_create db v).2 ∈
      (RecipeCreateUpdateSerializer_create db v).1.recipes ∧
    (RecipeCreateUpdateSerializer_create db v).2.id = db.nextRecipeId ∧
    (RecipeCreateUpdateSerializer_create db v).1.favouriteList = db.favouriteList ∧
    (RecipeCreateUpdateSerializer_create db v).1.shoppingList = db.shoppingList ∧
    (RecipeCreateUpdateSerializer_create db v).1.ingredientAmounts =
      db.ingredientAmounts ++ v.ingredients.map
        (fun e => ⟨db.nextRecipeId, e.id, e.amount⟩) := by
  refine ⟨?_, rfl, rfl, rfl, rfl⟩
  simp only [RecipeCreateUpdateSerializer_create, add_ingredients, setRecipe]
  apply List.mem_map.2
  exact ⟨⟨db.nextRecipeId, v.name, v.image, v.text, v.cooking_time, v.author, [], none⟩,
    by simp, by simp⟩

/-- A `setRecipe` whose per-row edit preserves ids keeps a row with the
target id present. -/
theorem exists_id_in_setRecipe (db : DB) (recipeId : Nat) (f : Recipe → Recipe)
    (hf : ∀ x, (f x).id = x.id)
    (h : ∃ r ∈ db.recipes, r.id = recipeId) :
    ∃ r2 ∈ (setRecipe db recipeId f).recipes, r2.id = recipeId := by
  obtain ⟨r, hr, hid⟩ := h
  refine ⟨if r.id == recipeId then f r else r, List.mem_map_of_mem _ hr, ?_⟩
  simp [hid, hf]

/-- `update` keeps a row with the updated recipe's id present: the per-row
edits never change the primary key. -/
theorem update_keeps_recipe (db : DB) (ctx : Ctx) (recipeId : Nat)
    (v : ValidatedRecipe) (h : ∃ r ∈ db.recipes, r.id = recipeId) :
    ∃ r2 ∈ (RecipeCreateUpdateSerializer_update db ctx recipeId v).recipes,
      r2.id = recipeId := by
  have h1 := exists_id_in_setRecipe db recipeId
    (fun r => { r with last_editor := ctx.viewer, name := v.name, image := v.image,
                       text := v.text, cooking_time := v.cooking_time })
    (fun x => rfl) h
  by_cases htg : v.tags.isEmpty
  · by_cases hi : v.ingredients.isEmpty <;>
      simpa [RecipeCreateUpdateSerializer_update, add_ingredients,
        Recipe_ingredients_clear, htg, hi] using h1
  · have h2 := exists_id_in_setRecipe
      (setRecipe db recipeId
        (fun r => { r with last_editor := ctx.viewer, name := v.name, image := v.image,
                           text := v.text, cooking_time := v.cooking_time }))
      recipeId (fun r => { r with tags := v.tags }) (fun x => rfl) h1
    by_cases hi : v.ingredients.isEmpty <;>
      simpa [RecipeCreateUpdateSerializer_update, add_ingredients,
        Recipe_ingredients_clear, htg, hi] using h2

/-- When a row with the id exists, `findRecipe` returns a stored row with
that id. -/
theorem findRecipe_mem (db : DB) (recipeId : Nat)
    (h : ∃ r ∈ db.recipes, r.id = recipeId) :
    findRecipe db recipeId ∈ db.recipes ∧
      (findRecipe db recipeId).id = recipeId := by
  unfold findRecipe
  cases hf : db.recipes.find? (fun x => x.id == recipeId) with
  | none =>
    exfalso
    obtain ⟨r, hr, hid⟩ := h
    have hs : (db.recipes.find? (fun x => x.id == recipeId)).isSome := by
      rw [List.find?_isSome]
      exact ⟨r, hr, by simp [hid]⟩
    simp [hf] at hs
  | some a =>
    refine ⟨List.mem_of_find?_eq_some hf, ?_⟩
    have ha := List.find?_some hf
    simpa using ha

/-- C7: every successful create or update renders its result through the
full read representation (`RecipeViewSerializer`) of the persisted recipe,
against the post-write state and the same request context — never the raw
input fields. -/
theorem write_renders_through_read_repr (db : DB) (ctx : Ctx)
    (author recipeId : Nat) (p : RecipePayload) (v : ValidatedRecipe)
    (hval : validateRecipePayload author p = .ok v)
    (hex : ∃ r ∈ db.recipes, r.id = recipeId) :
    (createRecipeAndRender db ctx author p =
      .ok ((RecipeCreateUpdateSerializer_create db v).1,
        RecipeViewSerializer_repr (RecipeCreateUpdateSerializer_create db v).1 ctx
          (RecipeCreateUpdateSerializer_create db v).2) ∧
      (RecipeCreateUpdateSerializer_create db v).2 ∈
        (RecipeCreateUpdateSerializer_create db v).1.recipes ∧
      (RecipeCreateUpdateSerializer_create db v).2.id = db.nextRecipeId) ∧
    (updateRecipeAndRender db ctx author recipeId p =
      .ok (RecipeCreateUpdateSerializer_update db ctx recipeId v,
        RecipeViewSerializer_repr
          (RecipeCreateUpdateSerializer_update db ctx recipeId v) ctx
          (findRecipe (RecipeCreateUpdateSerializer_update db ctx recipeId v)
            recipeId)) ∧
      findRecipe (RecipeCreateUpdateSerializer_update db ctx recipeId v) recipeId ∈
        (RecipeCreateUpdateSerializer_update db ctx recipeId v).recipes ∧
      (findRecipe (RecipeCreateUpdateSerializer_update db ctx recipeId v)
          recipeId).id = recipeId) := by
  have hkeep := update_keeps_recipe db ctx recipeId v hex
  have hfound := findRecipe_mem (RecipeCreateUpdateSerializer_update db ctx recipeId v)
    recipeId hkeep
  refine ⟨⟨?_, (create_persists db v).1, (create_persists db v).2.1⟩,
    ⟨?_, hfound.1, hfound.2⟩⟩
  · simp [createRecipeAndRender, hval, Bind.bind, Except.bind,
      RecipeCreateUpdateSerializer_to_representation]
  · simp [updateRecipeAndRender, hval, Bind.bind, Except.bind,
      RecipeCreateUpdateSerializer_to_representation]

/-- Witness for C7: at a concrete payload and state holding recipe 5, both
the create and the update render through the read representation of the
persisted recipe. -/
theorem write_renders_through_read_repr_witness :
    createRecipeAndRender
        ⟨[⟨9, "u", "e", "f", "l"⟩], [⟨3, "t", "c", "s"⟩], [⟨2, "ing", "g"⟩],
          [⟨5, "r", "i", "t", 3, 9, [4], none⟩], [], [], [], [], 6⟩
        ⟨some 9, none, none, none⟩ 9
        ⟨[3], [⟨2, 1⟩], "n", "im", "tx", .int 4⟩ =
      .ok ((RecipeCreateUpdateSerializer_create
          ⟨[⟨9, "u", "e", "f", "l"⟩], [⟨3, "t", "c", "s"⟩], [⟨2, "ing", "g"⟩],
            [⟨5, "r", "i", "t", 3, 9, [4], none⟩], [], [], [], [], 6⟩
          ⟨[3], [⟨2, 1⟩], "n", "im", "tx", 4, 9⟩).1,
        RecipeViewSerializer_repr
          (RecipeCreateUpdateSerializer_create
            ⟨[⟨9, "u", "e", "f", "l"⟩], [⟨3, "t", "c", "s"⟩], [⟨2, "ing", "g"⟩],
              [⟨5, "r", "i", "t", 3, 9, [4], none⟩], [], [], [], [], 6⟩
            ⟨[3], [⟨2, 1⟩], "n", "im", "tx", 4, 9⟩).1
          ⟨some 9, none, none, none⟩
          (RecipeCreateUpdateSerializer_create
            ⟨[⟨9, "u", "e", "f", "l"⟩], [⟨3, "t", "c", "s"⟩], [⟨2, "ing", "g"⟩],
              [⟨5, "r", "i", "t", 3, 9, [4], none⟩], [], [], [], [], 6⟩
            ⟨[3], [⟨2, 1⟩], "n", "im", "tx", 4, 9⟩).2) ∧
    updateRecipeAndRender
        ⟨[⟨9, "u", "e", "f", "l"⟩], [⟨3, "t", "c", "s"⟩], [⟨2, "ing", "g"⟩],
          [⟨5, "r", "i", "t", 3, 9, [4], none⟩], [], [], [], [], 6⟩
        ⟨some 9, none, none, none⟩ 9 5
        ⟨[3], [⟨2, 1⟩], "n", "im", "tx", .int 4⟩ =
      .ok (RecipeCreateUpdateSerializer_update
          ⟨[⟨9, "u", "e", "f", "l"⟩], [⟨3, "t", "c", "s"⟩], [⟨2, "ing", "g"⟩],
            [⟨5, "r", "i", "t", 3, 9, [4], none⟩], [], [], [], [], 6⟩
          ⟨some 9, none, none, none⟩ 5
          ⟨[3], [⟨2, 1⟩], "n", "im", "tx", 4, 9⟩,
        RecipeViewSerializer_repr
          (RecipeCreateUpdateSerializer_update
            ⟨[⟨9, "u", "e", "f", "l"⟩], [⟨3, "t", "c", "s"⟩], [⟨2, "ing", "g"⟩],
              [⟨5, "r", "i", "t", 3, 9, [4], none⟩], [], [], [], [], 6⟩
            ⟨some 9, none, none, none⟩ 5
            ⟨[3], [⟨2, 1⟩], "n", "im", "tx", 4, 9⟩)
          ⟨some 9, none, none, none⟩
          (findRecipe
            (RecipeCreateUpdateSerializer_update
              ⟨[⟨9, "u", "e", "f", "l"⟩], [⟨3, "t", "c", "s"⟩], [⟨2, "ing", "g"⟩],
                [⟨5, "r", "i", "t", 3, 9, [4], none⟩], [], [], [], [], 6⟩
              ⟨some 9, none, none, none⟩ 5
              ⟨[3], [⟨2, 1⟩], "n", "im", "tx", 4, 9⟩) 5)) :=
  ⟨(write_renders_through_read_repr
      ⟨[⟨9, "u", "e", "f", "l"⟩], [⟨3, "t", "c", "s"⟩], [⟨2, "ing", "g"⟩],
        [⟨5, "r", "i", "t", 3, 9, [4], none⟩], [], [], [], [], 6⟩
      ⟨some 9, none, none, none⟩ 9 5
      ⟨[3], [⟨2, 1⟩], "n", "im", "tx", .int 4⟩
      ⟨[3], [⟨2, 1⟩], "n", "im", "tx", 4, 9⟩ rfl
      ⟨⟨5, "r", "i", "t", 3, 9, [4], none⟩, by decide, rfl⟩).1.1,
    (write_renders_through_read_repr
      ⟨[⟨9, "u", "e", "f", "l"⟩], [⟨3, "t", "c", "s"⟩], [⟨2, "ing", "g"⟩],
        [⟨5, "r", "i", "t", 3, 9, [4], none⟩], [], [], [], [], 6⟩
      ⟨some 9, none, none, none⟩ 9 5
      ⟨[3], [⟨2, 1⟩], "n", "im", "tx", .int 4⟩
      ⟨[3], [⟨2, 1⟩], "n", "im", "tx", 4, 9⟩ rfl
      ⟨⟨5, "r", "i", "t", 3, 9, [4], none⟩, by decide, rfl⟩).2.1⟩

/-- The rendered ingredient line carries the join row's ingredient id,
whether or not the ingredient row is found. -/
theorem findIngredient_id (db : DB) (i : Nat) : (findIngredient db i).id = i := by
  unfold findIngredient
  cases h : db.ingredients.find? (fun t => t.id == i) with
  | none => simp
  | some a =>
    have ha := List.find?_some h
    simp only [Option.getD_some]
    simpa using ha

/-- C8: creating a recipe from the payload
{tags:[t1], ingredients:[{id:i1, amount:2}], cooking_time:10, name, image}
and reading it back over a state with no favourite, cart or ingredient row
for the fresh recipe id yields is_favorited = false,
is_in_shopping_cart = false, and exactly one ingredient line, with id i1
and amount 2. -/
theorem create_round_trip (db : DB) (ctx : Ctx) (author t1 i1 : Nat)
    (nm im tx : String) (db2 : DB) (out : RecipeViewRepr)
    (hfav : ∀ row ∈ db.favouriteList, row.recipe ≠ db.nextRecipeId)
    (hshop : ∀ row ∈ db.shoppingList, row.recipe ≠ db.nextRecipeId)
    (hia : ∀ ia ∈ db.ingredientAmounts, ia.recipe ≠ db.nextRecipeId)
    (h : createRecipeAndRender db ctx author ⟨[t1], [⟨i1, 2⟩], nm, im, tx, .int 10⟩
        = .ok (db2, out)) :
    out.is_favorited = false ∧ out.is_in_shopping_cart = false ∧
    out.ingredients.map (fun l => (l.id, l.amount)) = [(i1, (2 : Int))] := by
  have hval : validateRecipePayload author ⟨[t1], [⟨i1, 2⟩], nm, im, tx, .int 10⟩
      = .ok ⟨[t1], [⟨i1, 2⟩], nm, im, tx, 10, author⟩ := by
    simp [validateRecipePayload, validate_ingredients, validate_tags,
      validate_cooking_time, Bind.bind, Except.bind]
  simp only [createRecipeAndRender, hval, Bind.bind, Except.bind,
    RecipeCreateUpdateSerializer_to_representation, Except.ok.injEq,
    Prod.mk.injEq] at h
  obtain ⟨hdb, hout⟩ := h
  subst hdb
  subst hout
  obtain ⟨-, hid, hfavC, hshopC, hiaC⟩ :=
    create_persists db ⟨[t1], [⟨i1, 2⟩], nm, im, tx, 10, author⟩
  refine ⟨?_, ?_, ?_⟩
  · show RecipeViewSerializer_get_is_favorited _ ctx _ = false
    unfold RecipeViewSerializer_get_is_favorited
    cases hv : ctx.viewer with
    | none => rfl
    | some u =>
      rw [hfavC, List.any_eq_false]
      intro f hf
      have hne := hfav f hf
      rw [hid]
      simp [hne]
  · show RecipeViewSerializer_get_is_in_shopping_cart _ ctx _ = false
    unfold RecipeViewSerializer_get_is_in_shopping_cart
    cases hv : ctx.viewer with
    | none => rfl
    | some u =>
      rw [hshopC, List.any_eq_false]
      intro f hf
      have hne := hshop f hf
      rw [hid]
      simp [hne]
  · show (RecipeViewSerializer_get_ingredients _ _).map _ = _
    unfold RecipeViewSerializer_get_ingredients
    rw [hiaC, hid, List.filter_append]
    have h1 : db.ingredientAmounts.filter
        (fun ia => ia.recipe == db.nextRecipeId) = [] := by
      rw [List.filter_eq_nil_iff]
      intro a ha
      have hne := hia a ha
      simp [hne]
    have h2 : (([⟨i1, 2⟩] : List IngredientEntry).map
          (fun e => (⟨db.nextRecipeId, e.id, e.amount⟩ : IngredientAmountRow))).filter
        (fun ia => ia.recipe == db.nextRecipeId)
        = [⟨db.nextRecipeId, i1, 2⟩] := by
      simp
    rw [h1, h2, List.nil_append]
    simp [IngredientAmountShowSerializer_repr, findIngredient_id]

/-- Witness for C8: the round trip at a concrete state and payload. -/
theorem create_round_trip_witness :
    (RecipeViewSerializer_repr
        (RecipeCreateUpdateSerializer_create
          ⟨[⟨9, "u", "e", "f", "l"⟩], [⟨3, "t", "c", "s"⟩], [⟨2, "ing", "g"⟩], [], [],
            [⟨9, 0⟩], [], [], 1⟩
          ⟨[3], [⟨2, 2⟩], "X", "im", "tx", 10, 9⟩).1
        ⟨some 9, none, none, none⟩
        (RecipeCreateUpdateSerializer_create
          ⟨[⟨9, "u", "e", "f", "l"⟩], [⟨3, "t", "c", "s"⟩], [⟨2, "ing", "g"⟩], [], [],
            [⟨9, 0⟩], [], [], 1⟩
          ⟨[3], [⟨2, 2⟩], "X", "im", "tx", 10, 9⟩).2).is_favorited = false ∧
    (RecipeViewSerializer_repr
        (RecipeCreateUpdateSerializer_create
          ⟨[⟨9, "u", "e", "f", "l"⟩], [⟨3, "t", "c", "s"⟩], [⟨2, "ing", "g"⟩], [], [],
            [⟨9, 0⟩], [], [], 1⟩
          ⟨[3], [⟨2, 2⟩], "X", "im", "tx", 10, 9⟩).1
        ⟨some 9, none, none, none⟩
        (RecipeCreateUpdateSerializer_create
          ⟨[⟨9, "u", "e", "f", "l"⟩], [⟨3, "t", "c", "s"⟩], [⟨2, "ing", "g"⟩], [], [],
            [⟨9, 0⟩], [], [], 1⟩
          ⟨[3], [⟨2, 2⟩], "X", "im", "tx", 10, 9⟩).2).is_in_shopping_cart = false ∧
    (RecipeViewSerializer_repr
        (RecipeCreateUpdateSerializer_create
          ⟨[⟨9, "u", "e", "f", "l"⟩], [⟨3, "t", "c", "s"⟩], [⟨2, "ing", "g"⟩], [], [],
            [⟨9, 0⟩], [], [], 1⟩
          ⟨[3], [⟨2, 2⟩], "X", "im", "tx", 10, 9⟩).1
        ⟨some 9, none, none, none⟩
        (RecipeCreateUpdateSerializer_create
          ⟨[⟨9, "u", "e", "f", "l"⟩], [⟨3, "t", "c", "s"⟩], [⟨2, "ing", "g"⟩], [], [],
            [⟨9, 0⟩], [], [], 1⟩
          ⟨[3], [⟨2, 2⟩], "X", "im", "tx", 10, 9⟩).2).ingredients.map
      (fun l => (l.id, l.amount)) = [(2, (2 : Int))] :=
  create_round_trip
    ⟨[⟨9, "u", "e", "f", "l"⟩], [⟨3, "t", "c", "s"⟩], [⟨2, "ing", "g"⟩], [], [],
      [⟨9, 0⟩], [], [], 1⟩
    ⟨some 9, none, none, none⟩ 9 3 2 "X" "im" "tx"
    (RecipeCreateUpdateSerializer_create
      ⟨[⟨9, "u", "e", "f", "l"⟩], [⟨3, "t", "c", "s"⟩], [⟨2, "ing", "g"⟩], [], [],
        [⟨9, 0⟩], [], [], 1⟩
      ⟨[3], [⟨2, 2⟩], "X", "im", "tx", 10, 9⟩).1
    (RecipeViewSerializer_repr
      (RecipeCreateUpdateSerializer_create
        ⟨[⟨9, "u", "e", "f", "l"⟩], [⟨3, "t", "c", "s"⟩], [⟨2, "ing", "g"⟩], [], [],
          [⟨9, 0⟩], [], [], 1⟩
        ⟨[3], [⟨2, 2⟩], "X", "im", "tx", 10, 9⟩).1
      ⟨some 9, none, none, none⟩
      (RecipeCreateUpdateSerializer_create
        ⟨[⟨9, "u", "e", "f", "l"⟩], [⟨3, "t", "c", "s"⟩], [⟨2, "ing", "g"⟩], [], [],
          [⟨9, 0⟩], [], [], 1⟩
        ⟨[3], [⟨2, 2⟩], "X", "im", "tx", 10, 9⟩).2)
    (by decide) (by decide) (by decide) rfl

/-- C10: the rendered `is_subscribed` of a subscription row depends only on
the row's stored pair and the Subscription table — any two request contexts
yield the same value — and for any persisted row it is `true`, regardless of
whether the requesting viewer follows the target. -/
theorem subscription_is_subscribed_viewer_independent (db : DB)
    (ctx₁ ctx₂ : Ctx) (obj : SubscriptionRow) :
    SubscriptionSerializer_get_is_subscribed db ctx₁ obj =
      SubscriptionSerializer_get_is_subscribed db ctx₂ obj ∧
    (obj ∈ db.subscriptions →
      SubscriptionSerializer_get_is_subscribed db ctx₁ obj = true) := by
  refine ⟨rfl, ?_⟩
  intro hmem
  unfold SubscriptionSerializer_get_is_subscribed
  rw [List.any_eq_true]
  exact ⟨obj, hmem, by simp⟩

/-- Witness for C10: a persisted row (1, 2) renders `true` for a viewer
(user 5) who is not subscribed to the target, and identically for the
anonymous context. -/
theorem subscription_is_subscribed_viewer_independent_witness :
    (SubscriptionSerializer_get_is_subscribed
        ⟨[], [], [], [], [], [], [], [⟨1, 2⟩], 1⟩
        ⟨some 5, none, none, none⟩ ⟨1, 2⟩ =
      SubscriptionSerializer_get_is_subscribed
        ⟨[], [], [], [], [], [], [], [⟨1, 2⟩], 1⟩
        ⟨none, none, none, none⟩ ⟨1, 2⟩) ∧
    SubscriptionSerializer_get_is_subscribed
        ⟨[], [], [], [], [], [], [], [⟨1, 2⟩], 1⟩
        ⟨some 5, none, none, none⟩ ⟨1, 2⟩ = true :=
  ⟨(subscription_is_subscribed_viewer_independent
      ⟨[], [], [], [], [], [], [], [⟨1, 2⟩], 1⟩ ⟨some 5, none, none, none⟩
      ⟨none, none, none, none⟩ ⟨1, 2⟩).1,
    (subscription_is_subscribed_viewer_independent
      ⟨[], [], [], [], [], [], [], [⟨1, 2⟩], 1⟩ ⟨some 5, none, none, none⟩
      ⟨none, none, none, none⟩ ⟨1, 2⟩).2 (by decide)⟩

/-- C1: for every anonymous viewer and every stored state, the three derived
booleans `is_subscribed`, `is_favorited` and `is_in_shopping_cart` render as
`false`, regardless of the Subscription, FavouriteList and ShoppingList
tables. -/
theorem anonymous_viewer_booleans_false (db : DB) (ctx : Ctx)
    (h : ctx.viewer = none) (u : User) (r : Recipe) :
    CustomUserSerializer_get_is_subscribed db ctx u = false ∧
    RecipeViewSerializer_get_is_favorited db ctx r = false ∧
    RecipeViewSerializer_get_is_in_shopping_cart db ctx r = false := by
  refine ⟨?_, ?_, ?_⟩ <;>
    simp [CustomUserSerializer_get_is_subscribed,
      RecipeViewSerializer_get_is_favorited,
      RecipeViewSerializer_get_is_in_shopping_cart, h]

/-- Witness for C1 at a concrete state whose tables are all nonempty. -/
theorem anonymous_viewer_booleans_false_witness :
    (Ctx.mk none none none none).viewer = none ∧
    (CustomUserSerializer_get_is_subscribed
        ⟨[⟨1, "a", "a", "a", "a"⟩], [], [], [⟨1, "r", "i", "t", 5, 1, [], none⟩],
          [], [⟨1, 1⟩], [⟨1, 1⟩], [⟨1, 1⟩], 2⟩
        (Ctx.mk none none none none) ⟨1, "a", "a", "a", "a"⟩ = false ∧
      RecipeViewSerializer_get_is_favorited
        ⟨[⟨1, "a", "a", "a", "a"⟩], [], [], [⟨1, "r", "i", "t", 5, 1, [], none⟩],
          [], [⟨1, 1⟩], [⟨1, 1⟩], [⟨1, 1⟩], 2⟩
        (Ctx.mk none none none none) ⟨1, "r", "i", "t", 5, 1, [], none⟩ = false ∧
      RecipeViewSerializer_get_is_in_shopping_cart
        ⟨[⟨1, "a", "a", "a", "a"⟩], [], [], [⟨1, "r", "i", "t", 5, 1, [], none⟩],
          [], [⟨1, 1⟩], [⟨1, 1⟩], [⟨1, 1⟩], 2⟩
        (Ctx.mk none none none none) ⟨1, "r", "i", "t", 5, 1, [], none⟩ = false) :=
  ⟨rfl, anonymous_viewer_booleans_false _ _ rfl _ _⟩
